import Mathlib

/-!
Verification of the animal HTML-page generator (`animals_web_generator.py`).

The data-shaping pipeline is embedded shallowly: an animal record is a
structure with a name, a list of locations and a characteristics
dictionary (association list); the listing, filtering, serialization and
template-substitution functions are translated from the Python source.
Python string truthiness (the empty string is falsy) is modelled by
explicit comparisons with `""`; `dict.get` is modelled by `List.lookup`.
-/

/-- An animal record: `name`, `locations`, and the `characteristics`
dictionary (string keys and string values; absent keys are modelled by a
missing association-list entry). Mirrors the JSON objects consumed by
`animals_web_generator.py`. -/
structure Animal where
  name : String
  locations : List String
  characteristics : List (String × String)
deriving DecidableEq

/-- `animal["characteristics"].get(key)` — dictionary lookup without a
default, `none` when the key is absent. -/
def cget (a : Animal) (k : String) : Option String :=
  a.characteristics.lookup k

/-- `animal["characteristics"].get(key, "")` — lookup with default `""`. -/
def cgetD (a : Animal) (k : String) : String :=
  (cget a k).getD ""

/-- `extract_skin_type` (lines 116-119): `characteristics.get("skin_type")
or "Unknown"`. Python's `or` returns `"Unknown"` when the lookup yields
`None` or the falsy empty string. -/
def extract_skin_type (a : Animal) : String :=
  match cget a "skin_type" with
  | some v => if v = "" then "Unknown" else v
  | none => "Unknown"

/-- `list_skin_types` (lines 122-129): the set of extracted skin types
(`List.dedup` models the Python set), the non-"Unknown" values sorted
ascending, `"Unknown"` appended last when present, and `"All"` prepended. -/
def list_skin_types (data : List Animal) : List String :=
  "All" ::
    (List.insertionSort (· ≤ ·)
        (((data.map extract_skin_type).dedup).filter (fun v => v ≠ "Unknown"))
      ++ if "Unknown" ∈ (data.map extract_skin_type).dedup then ["Unknown"] else [])

/-- `filter_by_skin_type` (lines 150-154): the identity for `"All"`,
otherwise the list comprehension keeping the animals whose extracted skin
type equals the requested one. -/
def filter_by_skin_type (data : List Animal) (skin_type : String) : List Animal :=
  if skin_type = "All" then data
  else data.filter (fun a => extract_skin_type a = skin_type)

/-- The fixed field table built by `serialize_animal` (lines 86-95): eight
label/value pairs in source order. -/
def animalFields (a : Animal) : List (String × String) :=
  [("Diet", cgetD a "diet"),
   ("Locations", String.intercalate ", " a.locations),
   ("Type", cgetD a "type"),
   ("Skin type", cgetD a "skin_type"),
   ("Lifespan", cgetD a "lifespan"),
   ("Weight", cgetD a "weight"),
   ("Top speed", cgetD a "top_speed"),
   ("Temperament", cgetD a "temperament")]

/-- The detail-line comprehension of `serialize_animal` (lines 97-101):
keep exactly the pairs whose value is truthy (non-empty). -/
def detailsOf (a : Animal) : List (String × String) :=
  (animalFields a).filter (fun p => p.2 ≠ "")

/-- One rendered detail line (line 98). -/
def detailLine (label value : String) : String :=
  "            <li class=\"card__detail\"><strong>" ++ label ++ ":</strong> " ++ value ++ "</li>"

/-- The rendered title line (line 105). -/
def cardTitleLine (name : String) : String :=
  "        <div class=\"card__title\">" ++ name ++ "</div>"

/-- The `lines` list of `serialize_animal` (lines 103-112). -/
def serialize_lines (a : Animal) : List String :=
  ["    <li class=\"cards__item\">",
   cardTitleLine a.name,
   "        <div class=\"card__text\">",
   "            <ul class=\"card__details\">"]
  ++ (detailsOf a).map (fun p => detailLine p.1 p.2)
  ++ ["            </ul>",
      "        </div>",
      "    </li>"]

/-- `serialize_animal` (lines 82-113): the lines joined with newlines. -/
def serialize_animal (a : Animal) : String :=
  String.intercalate "\n" (serialize_lines a)

/-- `yield_data` (lines 157-167): one serialized card per animal. -/
def yield_data (data : List Animal) : List String :=
  data.map serialize_animal

/-- `create_error_message` (lines 170-191): the fixed "No Results Found"
card with the searched name interpolated. -/
def create_error_message (animal_name : String) : String :=
  "\n    <li class=\"cards__item\">\n        <div class=\"card__title\">No Results Found</div>\n        <div class=\"card__text\">\n            <h2 style=\"color: #e74c3c; text-align: center; margin: 20px 0;\">\n                The animal \"" ++ animal_name ++
  "\" doesn't exist.\n            </h2>\n            <p style=\"text-align: center; color: #7f8c8d; font-style: italic;\">\n                Please try searching for a different animal name.\n            </p>\n        </div>\n    </li>\n    "

/-- Does `pat` occur as a contiguous run inside `s`? Scans every suffix. -/
def occursIn (pat : List Char) : List Char → Bool
  | [] => pat.isEmpty
  | c :: rest => pat.isPrefixOf (c :: rest) || occursIn pat rest

/-- Left-to-right scan of Python `str.replace` for a non-empty pattern:
on a pattern match, emit the replacement and skip the pattern; otherwise
copy one character. `fuel` (instantiated with the length of the scanned
list) makes the recursion structural. -/
def replaceGo (pat rep : List Char) : Nat → List Char → List Char
  | _, [] => []
  | 0, s => s
  | fuel + 1, c :: rest =>
    if pat.isPrefixOf (c :: rest) then
      rep ++ replaceGo pat rep fuel (List.drop pat.length (c :: rest))
    else
      c :: replaceGo pat rep fuel rest

/-- Python `str.replace(pat, rep)`: every non-overlapping occurrence is
replaced left to right; an empty pattern inserts the replacement before
every character and once at the end (CPython semantics). -/
def pyReplace (s pat rep : String) : String :=
  if pat.data = [] then
    String.mk (rep.data ++ List.flatten (s.data.map (fun c => c :: rep.data)))
  else
    String.mk (replaceGo pat.data rep.data s.data.length s.data)

/-- `replace_html_content` (lines 194-206) with the template text passed
directly instead of read from a path: `template.replace(placeholder, data)`. -/
def replace_html_content (template placeholder data : String) : String :=
  pyReplace template placeholder data

/-- The page-assembly step of `generate_html` (lines 233-234): join the
rendered fragments with newlines and substitute them at the placeholder. -/
def assemble (fragments : List String) (template placeholder : String) : String :=
  replace_html_content template placeholder (String.intercalate "\n" fragments)

/-- `generate_html` (lines 209-234), with the template text passed
directly. Python's `if skin_type and skin_type != "All"` skips filtering
when `skin_type` is `None`, empty, or `"All"`; inside the branch an empty
filter result raises `ValueError` (modelled as `Except.error`). -/
def generate_html (data : List Animal) (template placeholder : String)
    (skin_type : Option String) : Except String String :=
  match skin_type with
  | some s =>
    if s ≠ "" ∧ s ≠ "All" then
      if filter_by_skin_type data s = [] then
        Except.error ("No animals found for skin type '" ++ s ++ "'.")
      else
        Except.ok (assemble (yield_data (filter_by_skin_type data s)) template placeholder)
    else
      Except.ok (assemble (yield_data data) template placeholder)
  | none => Except.ok (assemble (yield_data data) template placeholder)

/-- The skin-type listing as `main` computes it (lines 330-338 and
343-349): `main` calls `list_skin_types(animal_data)` the same way whether
the data came from the remote API or, with `--use-json`, from the local
file — the mode flag does not reach the listing. -/
def listClassifications (useJson : Bool) (data : List Animal) : List String :=
  list_skin_types data

/-- The empty-listing branch of `main` (lines 330-338): the message main
would print when `list_skin_types` returns an empty list, `none` otherwise. -/
def mainNoSkinTypeMessage (data : List Animal) : Option String :=
  if list_skin_types data = [] then some "No skin type data found." else none

/-- Spec-side splitter: the pieces of `s` between consecutive leftmost
non-overlapping occurrences of `pat`, same fuel discipline as `replaceGo`.
Together with `joinWith` it states the spec's "replaces every literal
occurrence" reading of substitution. -/
def splitGo (pat : List Char) : Nat → List Char → List (List Char)
  | _, [] => [[]]
  | 0, s => [s]
  | fuel + 1, c :: rest =>
    if pat.isPrefixOf (c :: rest) then
      [] :: splitGo pat fuel (List.drop pat.length (c :: rest))
    else
      match splitGo pat fuel rest with
      | [] => [[c]]
      | piece :: more => (c :: piece) :: more

/-- Spec-side splitter at full fuel. -/
def pySplit (s pat : List Char) : List (List Char) :=
  splitGo pat s.length s

/-- Spec-side join: interleave `sep` between consecutive pieces. -/
def joinWith (sep : List Char) : List (List Char) → List Char
  | [] => []
  | [piece] => piece
  | piece :: piece2 :: more => piece ++ sep ++ joinWith sep (piece2 :: more)

/-- The record of the spec's worked example: name "Fox", a characteristics
dictionary holding only diet "Omnivore". -/
def foxRecord : Animal :=
  ⟨"Fox", [], [("diet", "Omnivore")]⟩

/-! ## Helper lemmas -/

theorem count_filter_eq {α : Type} [DecidableEq α] (p : α → Bool) (l : List α) (a : α) :
    (l.filter p).count a = if p a then l.count a else 0 := by
  induction l with
  | nil => simp
  | cons x xs ih =>
    by_cases hx : p x
    · rw [List.filter_cons_of_pos hx]
      by_cases hax : a = x
      · subst hax
        simp [List.count_cons, ih, hx]
      · simp [List.count_cons, ih, hax]
    · rw [List.filter_cons_of_neg (by simpa using hx)]
      rw [ih]
      by_cases hax : a = x
      · subst hax
        simp [hx]
      · simp [List.count_cons, hax]

theorem occursIn_nil_pat (s : List Char) : occursIn [] s = true := by
  cases s <;> simp [occursIn, List.isPrefixOf]

theorem occursIn_append_of_right (pat t : List Char) (h : occursIn pat t = true)
    (s : List Char) : occursIn pat (s ++ t) = true := by
  induction s with
  | nil => simpa using h
  | cons c s ih => simp [occursIn, ih]

theorem isPrefixOf_append_self (pat t : List Char) : pat.isPrefixOf (pat ++ t) = true := by
  induction pat with
  | nil => simp [List.isPrefixOf]
  | cons c cs ih => simp [List.isPrefixOf, ih]

theorem occursIn_self_append (pat t : List Char) : occursIn pat (pat ++ t) = true := by
  cases pat with
  | nil => exact occursIn_nil_pat t
  | cons c cs => simp [occursIn, isPrefixOf_append_self]

theorem replaceGo_of_not_occurs (pat rep : List Char) :
    ∀ fuel s, occursIn pat s = false → replaceGo pat rep fuel s = s := by
  intro fuel
  induction fuel with
  | zero =>
    intro s h
    cases s <;> rfl
  | succ n ih =>
    intro s h
    cases s with
    | nil => rfl
    | cons c rest =>
      simp only [occursIn, Bool.or_eq_false_iff] at h
      simp [replaceGo, h.1, ih rest h.2]

theorem splitGo_ne_nil (pat : List Char) : ∀ fuel s, splitGo pat fuel s ≠ [] := by
  intro fuel s
  match fuel, s with
  | _, [] => simp [splitGo]
  | 0, c :: rest => simp [splitGo]
  | fuel + 1, c :: rest =>
    simp only [splitGo]
    split
    · simp
    · split <;> simp

theorem replaceGo_eq_joinWith_splitGo (pat rep : List Char) :
    ∀ fuel s, replaceGo pat rep fuel s = joinWith rep (splitGo pat fuel s) := by
  intro fuel
  induction fuel with
  | zero =>
    intro s
    cases s <;> rfl
  | succ n ih =>
    intro s
    cases s with
    | nil => rfl
    | cons c rest =>
      by_cases hp : pat.isPrefixOf (c :: rest) = true
      · obtain ⟨piece, more, heq⟩ :
            ∃ p m, splitGo pat n (List.drop pat.length (c :: rest)) = p :: m := by
          cases hsp : splitGo pat n (List.drop pat.length (c :: rest)) with
          | nil => exact absurd hsp (splitGo_ne_nil pat n _)
          | cons p m => exact ⟨p, m, rfl⟩
        simp [replaceGo, splitGo, hp, heq, ih, joinWith]
      · obtain ⟨piece, more, heq⟩ : ∃ p m, splitGo pat n rest = p :: m := by
          cases hsp : splitGo pat n rest with
          | nil => exact absurd hsp (splitGo_ne_nil pat n _)
          | cons p m => exact ⟨p, m, rfl⟩
        cases more with
        | nil => simp [replaceGo, splitGo, hp, heq, ih, joinWith]
        | cons p2 m2 => simp [replaceGo, splitGo, hp, heq, ih, joinWith]

theorem pyReplace_data_eq (s pat rep : String) (h : pat.data ≠ []) :
    (pyReplace s pat rep).data = joinWith rep.data (pySplit s.data pat.data) := by
  simp [pyReplace, h, pySplit, replaceGo_eq_joinWith_splitGo]

/-! ## Claim theorems -/

/-- C1 (amended): the classification listing is mode-independent — whether
the records came from the remote API or from the local JSON file, the
listing `main` computes prepends the wildcard "All" as its first entry. -/
theorem listClassifications_all_first (useJson : Bool) (data : List Animal) :
    (listClassifications useJson data).head? = some "All" := rfl

/-- C1 counterexample: in file mode (`--use-json`, modelled by the flag
`true`) the listing for a one-record data set does contain "All",
refuting "file-mode listings never contain All". -/
theorem listClassifications_file_mode_contains_all :
    "All" ∈ listClassifications true [foxRecord] := by decide

/-- C2: the listing is "All" followed by the distinct extracted skin
types, sorted ascending, except that "Unknown" (when among the extracted
values) is placed last. -/
theorem list_skin_types_sorted_spec (data : List Animal) :
    ∃ known : List String,
      list_skin_types data
        = "All" :: (known ++ if "Unknown" ∈ data.map extract_skin_type then ["Unknown"] else [])
      ∧ known.Sorted (· ≤ ·)
      ∧ known.Nodup
      ∧ ∀ v, v ∈ known ↔ v ≠ "Unknown" ∧ v ∈ data.map extract_skin_type := by
  refine ⟨List.insertionSort (· ≤ ·)
      (((data.map extract_skin_type).dedup).filter (fun v => v ≠ "Unknown")), ?_, ?_, ?_, ?_⟩
  · unfold list_skin_types
    congr 1
    congr 1
    exact if_congr List.mem_dedup rfl rfl
  · exact List.sorted_insertionSort _ _
  · exact ((List.perm_insertionSort _ _).nodup_iff).mpr ((List.nodup_dedup _).filter _)
  · intro v
    rw [(List.perm_insertionSort _ _).mem_iff, List.mem_filter, List.mem_dedup]
    simp [and_comm]

/-- C3: for a non-wildcard target, filtering keeps exactly the records
whose extracted skin type equals the target (multiplicity included), and
the result is a sublist of the input (original order preserved). -/
theorem filter_by_skin_type_spec (data : List Animal) (target : String) (h : target ≠ "All") :
    (∀ a ∈ filter_by_skin_type data target, extract_skin_type a = target)
    ∧ (∀ a : Animal, (filter_by_skin_type data target).count a
        = if extract_skin_type a = target then data.count a else 0)
    ∧ List.Sublist (filter_by_skin_type data target) data := by
  have hd : filter_by_skin_type data target
      = data.filter (fun a => extract_skin_type a = target) := if_neg h
  refine ⟨?_, ?_, ?_⟩
  · intro a ha
    rw [hd] at ha
    simpa using (List.mem_filter.mp ha).2
  · intro a
    rw [hd, count_filter_eq]
    simp
  · rw [hd]
    exact List.filter_sublist data

/-- C3 witness. -/
theorem filter_by_skin_type_spec_witness :
    List.Sublist (filter_by_skin_type [foxRecord] "Fur") [foxRecord] :=
  (filter_by_skin_type_spec [foxRecord] "Fur" (by decide)).2.2

/-- C4: filtering with the wildcard "All" returns the input unchanged. -/
theorem filter_by_skin_type_all_id (data : List Animal) :
    filter_by_skin_type data "All" = data := by
  simp [filter_by_skin_type]

/-- C5 counterexample: the empty-string target is not the wildcard and its
filtered subset is empty, yet `generate_html` succeeds (Python's
`if skin_type and ...` treats the falsy empty string as "no filter"),
refuting "the error is raised iff the filtered subset is empty and the
target is not All". -/
theorem generate_html_empty_target_no_error :
    filter_by_skin_type [foxRecord] "" = []
    ∧ ("" : String) ≠ "All"
    ∧ (generate_html [foxRecord] "T" "P" (some "")).isOk = true := by
  refine ⟨by decide, by decide, ?_⟩
  rfl

/-- C5 (amended): `generate_html` fails iff the requested skin type is
present, non-empty (truthy) and not the wildcard "All", and the filtered
subset is empty; the error then names the requested value. -/
theorem generate_html_error_iff (data : List Animal) (template placeholder : String)
    (st : Option String) :
    ((generate_html data template placeholder st).isOk = false
      ↔ ∃ s, st = some s ∧ s ≠ "" ∧ s ≠ "All" ∧ filter_by_skin_type data s = [])
    ∧ (∀ s, st = some s → s ≠ "" → s ≠ "All" → filter_by_skin_type data s = [] →
        generate_html data template placeholder st
          = Except.error ("No animals found for skin type '" ++ s ++ "'.")) := by
  constructor
  · cases st with
    | none => simp [generate_html, Except.isOk, Except.toBool]
    | some s =>
      by_cases h1 : s = ""
      · subst h1
        simp [generate_html, Except.isOk, Except.toBool]
      · by_cases h2 : s = "All"
        · subst h2
          simp [generate_html, Except.isOk, Except.toBool]
        · by_cases h3 : filter_by_skin_type data s = []
          · simp [generate_html, Except.isOk, Except.toBool, h1, h2, h3]
          · simp [generate_html, Except.isOk, Except.toBool, h1, h2, h3]
  · intro s hst h1 h2 h3
    subst hst
    simp [generate_html, h1, h2, h3]

/-- C5 witness. -/
theorem generate_html_error_iff_witness :
    generate_html [] "T" "P" (some "Fur")
      = Except.error ("No animals found for skin type 'Fur'.") :=
  (generate_html_error_iff [] "T" "P" (some "Fur")).2 "Fur" rfl
    (by decide) (by decide) rfl

set_option maxRecDepth 4000 in
/-- C6: a card's second line is the title carrying the record's name; the
labels of the emitted detail lines form an in-order sublist of the fixed
eight labels; a field's detail pair is kept iff its value is non-empty;
and on the spec's Fox example the rendered card has the Diet/Omnivore
detail line and no "Type:" text at all. -/
theorem serialize_animal_spec (a : Animal) :
    (serialize_lines a)[1]? = some (cardTitleLine a.name)
    ∧ List.Sublist ((detailsOf a).map Prod.fst)
        ["Diet", "Locations", "Type", "Skin type", "Lifespan", "Weight",
         "Top speed", "Temperament"]
    ∧ (∀ label value, (label, value) ∈ animalFields a →
        ((label, value) ∈ detailsOf a ↔ value ≠ ""))
    ∧ detailLine "Diet" "Omnivore" ∈ serialize_lines foxRecord
    ∧ occursIn ("Type:").data (serialize_animal foxRecord).data = false := by
  refine ⟨rfl, ?_, ?_, by decide, by decide⟩
  · have h := (List.filter_sublist (animalFields a)
      (p := fun p => p.2 ≠ "")).map Prod.fst
    simpa [detailsOf, animalFields] using h
  · intro label value hmem
    simp [detailsOf, List.mem_filter, hmem]

/-- C6 witness. -/
theorem serialize_animal_spec_witness :
    (("Diet", "Omnivore") ∈ animalFields foxRecord)
    ∧ (("Diet", "Omnivore") ∈ detailsOf foxRecord ↔ ("Omnivore" : String) ≠ "") :=
  ⟨by decide, (serialize_animal_spec foxRecord).2.2.1 "Diet" "Omnivore" (by decide)⟩

/-- C7: the page assembler leaves the template unchanged when the
placeholder does not occur in it; for a non-empty placeholder the result
is the template split at every placeholder occurrence and rejoined with
the newline-joined fragments (i.e. every occurrence is replaced); and the
spec's worked example holds. -/
theorem assemble_spec (fragments : List String) (template placeholder : String) :
    (occursIn placeholder.data template.data = false →
      assemble fragments template placeholder = template)
    ∧ (placeholder.data ≠ [] →
        (assemble fragments template placeholder).data
          = joinWith (String.intercalate "\n" fragments).data
              (pySplit template.data placeholder.data))
    ∧ assemble ["<li>X</li>"] "<ul>__REPLACE_ANIMALS_INFO__</ul>" "__REPLACE_ANIMALS_INFO__"
        = "<ul><li>X</li></ul>" := by
  refine ⟨?_, ?_, by decide⟩
  · intro h
    have hpat : placeholder.data ≠ [] := by
      intro hx
      rw [hx, occursIn_nil_pat] at h
      exact Bool.noConfusion h
    show pyReplace template placeholder _ = template
    cases template with
    | mk l =>
      simp only [pyReplace, hpat, if_neg]
      exact congrArg String.mk (replaceGo_of_not_occurs _ _ _ _ h)
  · intro h
    exact pyReplace_data_eq _ _ _ h

/-- C7 witness. -/
theorem assemble_spec_witness :
    (assemble [] "abc" "zz" = "abc")
    ∧ (assemble ["Y"] "a__P__b" "__P__").data
        = joinWith ("Y" : String).data (pySplit ("a__P__b" : String).data ("__P__" : String).data) :=
  ⟨(assemble_spec [] "abc" "zz").1 (by decide),
   (assemble_spec ["Y"] "a__P__b" "__P__").2.1 (by decide)⟩

/-- C8: the extractor returns the characteristics' skin_type entry when it
is present and non-empty, and the sentinel "Unknown" when the entry is
absent or empty. -/
theorem extract_skin_type_spec (a : Animal) :
    (∀ v, cget a "skin_type" = some v → v ≠ "" → extract_skin_type a = v)
    ∧ (cget a "skin_type" = none → extract_skin_type a = "Unknown")
    ∧ (cget a "skin_type" = some "" → extract_skin_type a = "Unknown") := by
  refine ⟨?_, ?_, ?_⟩
  · intro v hv hne
    simp [extract_skin_type, hv, hne]
  · intro h
    simp [extract_skin_type, h]
  · intro h
    simp [extract_skin_type, h]

/-- C8 witness. -/
theorem extract_skin_type_spec_witness :
    extract_skin_type ⟨"Croc", [], [("skin_type", "Scales")]⟩ = "Scales" :=
  (extract_skin_type_spec _).1 "Scales" rfl (by decide)

/-- C9: the error card contains the searched name and the literal text
"doesn't exist" for every searched name. -/
theorem create_error_message_spec (animal_name : String) :
    occursIn animal_name.data (create_error_message animal_name).data = true
    ∧ occursIn ("doesn't exist" : String).data (create_error_message animal_name).data = true := by
  constructor
  · show occursIn animal_name.data ((_ ++ animal_name) ++ _ : String).data = true
    rw [String.data_append, String.data_append, List.append_assoc]
    exact occursIn_append_of_right _ _ (occursIn_self_append _ _) _
  · show occursIn _ ((_ ++ animal_name) ++ _ : String).data = true
    rw [String.data_append]
    exact occursIn_append_of_right _ _ (by decide) _

/-- C10: `list_skin_types` always returns a non-empty list headed by
"All", so the "No skin type data found." branch of `main` is unreachable. -/
theorem list_skin_types_never_empty (data : List Animal) :
    (list_skin_types data).head? = some "All"
    ∧ list_skin_types data ≠ []
    ∧ mainNoSkinTypeMessage data = none := by
  refine ⟨rfl, by simp [list_skin_types], ?_⟩
  simp [mainNoSkinTypeMessage, list_skin_types]
